import Mathlib

/-!
Shallow embedding of `mindsdb/api/http/namespaces/projects.py` — the HTTP
resource layer for Projects, Views and model prediction — together with
theorems settling the specification claims about it.

Modelling conventions:
* A stored view record (what `project.get_view` / `project.get_views`
  return) is a dict with keys `name`, `query` and a `metadata` sub-dict
  holding `id`; further metadata keys and further top-level keys are
  modelled explicitly so that information-flow claims are statable.
* `request.json` payloads are modelled structurally, with `Option` for
  field presence.
* `abort(status, msg)` is the `Response.aborted` outcome; an uncaught
  Python exception escaping the handler (e.g. a `KeyError` from a missing
  dict subscript) is the distinct `Response.pythonError` outcome; a plain
  `return body` is `Response.ok 200`, and `return body, STATUS` is
  `Response.ok STATUS`.
* Handlers that mutate the registry return the updated database next to
  the response (Python mutates the shared registry in place).
* The prediction handler additionally returns the ordered list of
  externally visible steps it performed (`PredictEvent`), so that
  ordering claims ("fails before any resolution work") are statable.
-/

namespace MindsDB

/-- A stored view record: `name`, `query`, the `metadata` sub-dict
(its `id` entry plus any further metadata entries), and any further
top-level entries of the stored dict. The handlers only ever read
`metadata.id`, `name` and `query`. -/
structure StoredView where
  name : String
  query : String
  metaId : Nat
  metaExtra : List (String × String)
  extra : List (String × String)
deriving Repr, DecidableEq

/-- A project's view registry. `nextId` models the registry assigning a
fresh opaque `id` to each created view. -/
structure Project where
  views : List StoredView
  nextId : Nat
deriving Repr, DecidableEq

/-- `project.get_view(name)`: the stored view with that name, or `None`. -/
def Project.get_view (p : Project) (name : String) : Option StoredView :=
  p.views.find? (fun v => v.name == name)

/-- `project.get_views()`: all stored views, in order. -/
def Project.get_views (p : Project) : List StoredView :=
  p.views

/-- `project.create_view(name, query)`: the registry gains a new view with
a freshly assigned id. -/
def Project.create_view (p : Project) (name query : String) : Project :=
  { views := p.views ++ [⟨name, query, p.nextId, [], []⟩],
    nextId := p.nextId + 1 }

/-- `project.update_view(name, query)`: replaces the stored query of the
view(s) named `name`, preserving id and name. -/
def Project.update_view (p : Project) (name query : String) : Project :=
  { p with
    views := p.views.map (fun v => if v.name == name then { v with query := query } else v) }

/-- `project.delete_view(name)`: removes the view(s) named `name`. -/
def Project.delete_view (p : Project) (name : String) : Project :=
  { p with views := p.views.filter (fun v => v.name != name) }

/-- The database controller's project directory: a keyed collection of
projects. -/
structure DB where
  projects : List (String × Project)
deriving Repr, DecidableEq

/-- `session.database_controller.get_project(name)`; `none` models the
`NoResultFound` exception path. -/
def DB.get_project (db : DB) (name : String) : Option Project :=
  (db.projects.find? (fun pr => pr.1 == name)).map (fun pr => pr.2)

/-- Write back the (mutated-in-place in Python) project under its name. -/
def DB.set_project (db : DB) (name : String) (p : Project) : DB :=
  { projects := db.projects.map (fun pr => if pr.1 == name then (pr.1, p) else pr) }

/-- Outcome of a handler: a normal return with an HTTP status and body, an
`abort(status, msg)`, or an uncaught Python exception escaping the
handler. -/
inductive Response (α : Type) where
  | ok (status : Nat) (body : α)
  | aborted (status : Nat) (msg : String)
  | pythonError (msg : String)
deriving Repr, DecidableEq

/-- Whether an outcome is a bad-request (caller error) abort. -/
def Response.isBadRequest {α : Type} : Response α → Bool
  | .aborted status _ => status == 400
  | _ => false

/-- Whether an outcome is a not-found abort. -/
def Response.isNotFound {α : Type} : Response α → Bool
  | .aborted status _ => status == 404
  | _ => false

/-- The public projection of a view: exactly the fields the handlers
return ("Only want to return relevant fields to the user."). -/
structure ViewProjection where
  id : Nat
  name : String
  query : String
deriving Repr, DecidableEq

/-- `{'id': v['metadata']['id'], 'name': v['name'], 'query': v['query']}`. -/
def view_public_projection (v : StoredView) : ViewProjection :=
  ⟨v.metaId, v.name, v.query⟩

/-- The `view` object of a POST/PUT body, with field presence explicit. -/
structure ViewFields where
  name : Option String
  query : Option String
deriving Repr, DecidableEq

/-- A POST/PUT request body: the optional top-level `view` object. -/
structure ViewPayload where
  view : Option ViewFields
deriving Repr, DecidableEq

/-- `ViewsList.get`: list all views of a project. -/
def views_list_get (db : DB) (project_name : String) :
    Response (List ViewProjection) :=
  match db.get_project project_name with
  | none => .aborted 404 ("Project name " ++ project_name ++ " does not exist")
  | some project =>
      .ok 200 (project.get_views.map view_public_projection)

/-- Lines 90-105 of `ViewsList.post`, after the payload checks: resolve
the project, check for a name conflict, create the view and return its
public projection. -/
def views_list_post_core (db : DB) (project_name name query : String) :
    Response ViewProjection × DB :=
  match db.get_project project_name with
  | none =>
      (.aborted 404 ("Project name " ++ project_name ++ " does not exist"), db)
  | some project =>
    if (project.get_view name).isSome then
      (.aborted 409 ("View with name " ++ name ++ " already exists."), db)
    else
      let project2 := project.create_view name query
      match project2.get_view name with
      | some created_view =>
          (.ok 201 (view_public_projection created_view),
           db.set_project project_name project2)
      | none =>
          -- `created_view['metadata']` would raise on `None`
          (.pythonError "TypeError: NoneType is not subscriptable",
           db.set_project project_name project2)

/-- `ViewsList.post`: create a new view. Returns the response and the
database after the handler ran. Lines 79-88 (payload-shape checks)
followed by the resolution/conflict/create part. -/
def views_list_post (db : DB) (project_name : String) (json : ViewPayload) :
    Response ViewProjection × DB :=
  match json.view with
  | none => (.aborted 400 "Must provide \"view\" parameter in POST body", db)
  | some view_obj =>
    match view_obj.name with
    | none => (.aborted 400 "Missing \"name\" field for view", db)
    | some name =>
      match view_obj.query with
      | none => (.aborted 400 "Missing \"query\" field for view", db)
      | some query => views_list_post_core db project_name name query

/-- `ViewResource.get`: get a view by name. -/
def view_resource_get (db : DB) (project_name view_name : String) :
    Response ViewProjection :=
  match db.get_project project_name with
  | none => .aborted 404 ("Project name " ++ project_name ++ " does not exist")
  | some project =>
    match project.get_view view_name with
    | none => .aborted 404 ("View with name " ++ view_name ++ " does not exist")
    | some view => .ok 200 (view_public_projection view)

/-- `ViewResource.put`: update or create a view. -/
def view_resource_put (db : DB) (project_name view_name : String)
    (json : ViewPayload) : Response ViewProjection × DB :=
  match json.view with
  | none => (.aborted 400 "Must provide \"view\" parameter in PUT body", db)
  | some request_view =>
    match db.get_project project_name with
    | none =>
        (.aborted 404 ("Project name " ++ project_name ++ " does not exist"), db)
    | some project =>
      match project.get_view view_name with
      | none =>
        -- Create
        match request_view.query with
        | none => (.aborted 400 "Missing \"query\" field for new view", db)
        | some query =>
          let project2 := project.create_view view_name query
          match project2.get_view view_name with
          | some created_view =>
              (.ok 201 (view_public_projection created_view),
               db.set_project project_name project2)
          | none =>
              (.pythonError "TypeError: NoneType is not subscriptable",
               db.set_project project_name project2)
      | some _existing_view =>
        let step : Project × DB :=
          match request_view.query with
          | some new_query =>
              let project2 := project.update_view view_name new_query
              (project2, db.set_project project_name project2)
          | none => (project, db)
        match step.1.get_view view_name with
        | some existing_view2 =>
            (.ok 200 (view_public_projection existing_view2), step.2)
        | none =>
            (.pythonError "TypeError: NoneType is not subscriptable", step.2)

/-- `ViewResource.delete`: delete a view by name; returns `('', 204)` on
success. -/
def view_resource_delete (db : DB) (project_name view_name : String) :
    Response String × DB :=
  match db.get_project project_name with
  | none =>
      (.aborted 404 ("Project name " ++ project_name ++ " does not exist"), db)
  | some project =>
    match project.get_view view_name with
    | none =>
        (.aborted 404 ("View with name " ++ view_name ++ " does not exist"), db)
    | some _ =>
        (.ok 204 "", db.set_project project_name (project.delete_view view_name))

/-- Python `str.isdigit` on the strings relevant here: non-empty and every
character a decimal digit (ASCII `'0'`-`'9'`). -/
def py_isdigit (s : String) : Bool :=
  !s.data.isEmpty && s.data.all Char.isDigit

/-- Python `int` applied to an all-decimal-digit string: its decimal
value. -/
def py_int_of_digits (s : String) : Nat :=
  s.data.foldl (fun n c => n * 10 + (c.toNat - Char.toNat '0')) 0

/-- Python `str.split('.')` on a character list: split at every `'.'`,
keeping empty segments; the result is always non-empty. -/
def py_split_dot : List Char → List (List Char)
  | [] => [[]]
  | c :: rest =>
    let r := py_split_dot rest
    if c = '.' then [] :: r
    else (c :: r.headD []) :: r.tail

/-- Python `model_name.split('.')`. -/
def py_split_on_dot (s : String) : List String :=
  (py_split_dot s.data).map (fun cs => ⟨cs⟩)

/-- Python `'.'.join(parts)`. -/
def py_join_dot : List String → String
  | [] => ""
  | [s] => s
  | s :: rest => s ++ "." ++ py_join_dot rest

/-- Lines 196-201 of `ModelPredict.post`: split the model identifier on
`'.'`; when there are at least two parts and the last is all digits, that
last part is the version and the rest, rejoined with `'.'`, the model
name. -/
def resolve_model_version (model_name : String) : String × Option Nat :=
  let parts := py_split_on_dot model_name
  if parts.length > 1 && py_isdigit (parts.getLastD "") then
    (py_join_dot parts.dropLast, some (py_int_of_digits (parts.getLastD "")))
  else
    (model_name, none)

/-- A predict request body: `data` required by the handler, `params`
fetched with `.get` (so optional). -/
structure PredictPayload (Data Params : Type) where
  data : Option Data
  params : Option Params
deriving Repr, DecidableEq

/-- An executable target returned by the data-hub lookup; its prediction
capability produces a tabular result (a pandas DataFrame). -/
structure DataNode (Data Params Frame : Type) where
  predict : (model_name : String) → (data : Data) → (version : Option Nat) →
      (params : Option Params) → Frame

/-- The collaborators `ModelPredict.post` calls into: the data-hub lookup
`session.datahub.get`, and the DataFrame conversion
`predictions.to_dict('records')`. -/
structure PredictEnv (Data Params Frame Row : Type) where
  datahub_get : String → Option (DataNode Data Params Frame)
  to_dict_records : Frame → List Row

/-- Externally visible steps of `ModelPredict.post`, in execution order:
the version-suffix resolution of the model identifier (lines 196-201),
the data-hub lookup (line 207), and the invocation of the target's
prediction capability with its exact arguments (lines 212-217). -/
inductive PredictEvent (Data Params : Type) where
  | version_resolve (raw : String) (model_name : String) (version : Option Nat)
  | datahub_get (project_name : String)
  | predict_call (model_name : String) (data : Data) (version : Option Nat)
      (params : Option Params)
deriving Repr, DecidableEq

/-- `ModelPredict.post`: returns the response together with the ordered
trace of steps performed. `request.json['data']` on a payload without
`data` raises an uncaught `KeyError`. -/
def model_predict_post {Data Params Frame Row : Type}
    (env : PredictEnv Data Params Frame Row)
    (project_name model_name : String) (json : PredictPayload Data Params) :
    Response (List Row) × List (PredictEvent Data Params) :=
  let resolved := resolve_model_version model_name
  let trace0 := [PredictEvent.version_resolve model_name resolved.1 resolved.2]
  match json.data with
  | none => (.pythonError "KeyError: data", trace0)
  | some data =>
    let params := json.params
    let trace1 := trace0 ++ [PredictEvent.datahub_get project_name]
    match env.datahub_get project_name with
    | none => (.aborted 500 ("Project not found: " ++ project_name), trace1)
    | some project_datanode =>
      let predictions := project_datanode.predict resolved.1 data resolved.2 params
      (.ok 200 (env.to_dict_records predictions),
       trace1 ++ [PredictEvent.predict_call resolved.1 data resolved.2 params])

end MindsDB

namespace MindsDB

theorem Project.get_view_name {p : Project} {n : String} {v : StoredView}
    (h : p.get_view n = some v) : v.name = n := by
  have hp := List.find?_some h
  exact eq_of_beq hp

theorem find?_beq_append_none {n : String} {l : List StoredView} (w : StoredView)
    (hw : w.name = n) (h : l.find? (fun x => x.name == n) = none) :
    (l ++ [w]).find? (fun x => x.name == n) = some w := by
  induction l with
  | nil => simp [hw]
  | cons x xs ih =>
    by_cases hx : x.name = n
    · simp [hx] at h
    · have hxb : ¬ ((x.name == n) = true) := by simp [hx]
      rw [List.find?_cons_of_neg (p := fun x : StoredView => x.name == n) _ hxb] at h
      rw [List.cons_append, List.find?_cons_of_neg (p := fun x : StoredView => x.name == n) _ hxb]
      exact ih h

theorem Project.get_view_create_view {p : Project} {n : String} (q : String)
    (h : p.get_view n = none) :
    (p.create_view n q).get_view n = some ⟨n, q, p.nextId, [], []⟩ := by
  simp only [Project.get_view, Project.create_view] at h ⊢
  exact find?_beq_append_none _ rfl h

theorem find?_beq_map_update {n q : String} {l : List StoredView} {v : StoredView}
    (h : l.find? (fun w => w.name == n) = some v) :
    (l.map (fun w => if w.name == n then { w with query := q } else w)).find?
        (fun w => w.name == n) = some { v with query := q } := by
  induction l with
  | nil => simp at h
  | cons x xs ih =>
    by_cases hx : x.name = n
    · have hxb : (x.name == n) = true := by simp [hx]
      rw [List.find?_cons_of_pos (p := fun w : StoredView => w.name == n) _ hxb] at h
      obtain rfl : x = v := by simpa using h
      simp [hx]
    · have hxb : ¬ ((x.name == n) = true) := by simp [hx]
      rw [List.find?_cons_of_neg (p := fun w : StoredView => w.name == n) _ hxb] at h
      simp only [List.map_cons, if_neg hxb]
      rw [List.find?_cons_of_neg (p := fun w : StoredView => w.name == n) _ hxb]
      exact ih h

theorem Project.get_view_update_view {p : Project} {n : String} (q : String)
    {v : StoredView} (h : p.get_view n = some v) :
    (p.update_view n q).get_view n = some { v with query := q } := by
  simp only [Project.get_view, Project.update_view] at h ⊢
  exact find?_beq_map_update h

theorem find?_beq_filter_ne {n : String} (l : List StoredView) :
    (l.filter (fun w => w.name != n)).find? (fun w => w.name == n) = none := by
  induction l with
  | nil => simp
  | cons x xs ih =>
    by_cases hx : x.name = n
    · simp only [List.filter_cons]
      rw [if_neg (by simp [hx])]
      exact ih
    · simp only [List.filter_cons]
      rw [if_pos (by simp [hx])]
      rw [List.find?_cons_of_neg (p := fun w : StoredView => w.name == n) _ (by simp [hx])]
      exact ih

theorem Project.get_view_delete_view (p : Project) (n : String) :
    (p.delete_view n).get_view n = none := by
  simp only [Project.get_view, Project.delete_view]
  exact find?_beq_filter_ne p.views

example : resolve_model_version "sales" = ("sales", none) := by decide
example : resolve_model_version "sales.3" = ("sales", some 3) := by decide
example : resolve_model_version "a.b.3" = ("a.b", some 3) := by decide
example : resolve_model_version "sales.v2" = ("sales.v2", none) := by decide
example : resolve_model_version "3" = ("3", none) := by decide
example : resolve_model_version "m.007" = ("m", some 7) := by decide
example : resolve_model_version "m." = ("m.", none) := by decide
example : resolve_model_version "" = ("", none) := by decide

example :
    model_predict_post (⟨fun _ => none, fun _ => []⟩ : PredictEnv Nat Nat Nat Nat) "p" "m.2" ⟨none, none⟩
      = (.pythonError "KeyError: data", [.version_resolve "m.2" "m" (some 2)]) := by
  decide

example :
    model_predict_post (⟨fun _ => none, fun _ => []⟩ : PredictEnv Nat Nat Nat Nat) "p" "m" ⟨some 5, none⟩
      = (.aborted 500 "Project not found: p",
         [.version_resolve "m" "m" none, .datahub_get "p"]) := by
  decide

example :
    views_list_get ⟨[("p", ⟨[⟨"v", "q", 7, [("a", "b")], []⟩], 8⟩)]⟩ "p"
      = .ok 200 [⟨7, "v", "q"⟩] := by decide

example :
    (views_list_post ⟨[("p", ⟨[], 0⟩)]⟩ "p" ⟨some ⟨some "", some ""⟩⟩).1
      = .ok 201 ⟨0, "", ""⟩ := by decide

example :
    view_resource_put ⟨[("p", ⟨[⟨"v", "q", 3, [], []⟩], 4⟩)]⟩ "p" "v" ⟨some ⟨none, none⟩⟩
      = (.ok 200 ⟨3, "v", "q"⟩, ⟨[("p", ⟨[⟨"v", "q", 3, [], []⟩], 4⟩)]⟩) := by decide

example :
    view_resource_put ⟨[("p", ⟨[⟨"v", "q", 3, [], []⟩], 4⟩)]⟩ "p" "v" ⟨some ⟨none, some "q2"⟩⟩
      = (.ok 200 ⟨3, "v", "q2"⟩, ⟨[("p", ⟨[⟨"v", "q2", 3, [], []⟩], 4⟩)]⟩) := by decide

example :
    view_resource_delete ⟨[("p", ⟨[⟨"v", "q", 3, [], []⟩], 4⟩)]⟩ "p" "v"
      = (.ok 204 "", ⟨[("p", ⟨[], 4⟩)]⟩) := by decide

theorem string_ne_empty_iff (t : String) : t ≠ "" ↔ t.data ≠ [] := by
  rw [Ne, Ne, String.ext_iff]

theorem py_isdigit_iff (t : String) :
    py_isdigit t = true ↔ (t ≠ "" ∧ ∀ c ∈ t.data, c.isDigit = true) := by
  rw [string_ne_empty_iff]
  simp [py_isdigit, List.isEmpty_iff, List.all_eq_true]

/-- Claim C2: the model version resolver is a pure total function: split
the input on `'.'`; with at least two segments and a non-empty all-digit
last segment, the result is the other segments rejoined with `'.'`
together with the last segment's decimal value; otherwise the whole
input with no version. The given examples hold. -/
theorem model_version_resolver_spec :
    (∀ s : String,
      resolve_model_version s =
        if 2 ≤ (py_split_on_dot s).length ∧ (py_split_on_dot s).getLastD "" ≠ ""
            ∧ ∀ c ∈ ((py_split_on_dot s).getLastD "").data, c.isDigit = true
        then (py_join_dot (py_split_on_dot s).dropLast,
              some (py_int_of_digits ((py_split_on_dot s).getLastD "")))
        else (s, none))
    ∧ resolve_model_version "sales" = ("sales", none)
    ∧ resolve_model_version "sales.3" = ("sales", some 3)
    ∧ resolve_model_version "a.b.3" = ("a.b", some 3)
    ∧ resolve_model_version "sales.v2" = ("sales.v2", none)
    ∧ resolve_model_version "3" = ("3", none) := by
  refine ⟨?_, by decide, by decide, by decide, by decide, by decide⟩
  intro s
  by_cases h : 2 ≤ (py_split_on_dot s).length ∧ (py_split_on_dot s).getLastD "" ≠ ""
      ∧ ∀ c ∈ ((py_split_on_dot s).getLastD "").data, c.isDigit = true
  · have hb : ((py_split_on_dot s).length > 1
        && py_isdigit ((py_split_on_dot s).getLastD "")) = true := by
      obtain ⟨h1, h2, h3⟩ := h
      simp only [Bool.and_eq_true, decide_eq_true_eq]
      exact ⟨h1, (py_isdigit_iff _).mpr ⟨h2, h3⟩⟩
    rw [if_pos h]
    simp only [resolve_model_version]
    rw [hb]
    simp
  · have hb : ((py_split_on_dot s).length > 1
        && py_isdigit ((py_split_on_dot s).getLastD "")) = false := by
      rcases hcb : ((py_split_on_dot s).length > 1
          && py_isdigit ((py_split_on_dot s).getLastD "")) with _ | _
      · rfl
      · exfalso
        simp only [Bool.and_eq_true, decide_eq_true_eq] at hcb
        exact h ⟨hcb.1, ((py_isdigit_iff _).mp hcb.2).1, ((py_isdigit_iff _).mp hcb.2).2⟩
    rw [if_neg h]
    simp only [resolve_model_version]
    rw [hb]
    simp

theorem model_version_resolver_spec_witness :
    resolve_model_version "x.12" = ("x", some 12) := by
  exact model_version_resolver_spec.1 "x.12"

/-- Claim C3 counterexample: a predict request with no `data` in the
payload does not produce a bad-request abort — the handler raises an
uncaught `KeyError` — and the model identifier has already been resolved
when the failure occurs (the version-resolve step is in the trace). -/
theorem predict_missing_data_counterexample :
    (model_predict_post (⟨fun _ => none, fun _ => []⟩ : PredictEnv Nat Nat Nat Nat)
        "proj" "sales.3" ⟨none, none⟩).1
      = Response.pythonError "KeyError: data"
    ∧ (model_predict_post (⟨fun _ => none, fun _ => []⟩ : PredictEnv Nat Nat Nat Nat)
        "proj" "sales.3" ⟨none, none⟩).1.isBadRequest = false
    ∧ PredictEvent.version_resolve "sales.3" "sales" (some 3)
        ∈ (model_predict_post (⟨fun _ => none, fun _ => []⟩ : PredictEnv Nat Nat Nat Nat)
            "proj" "sales.3" ⟨none, none⟩).2 := by
  decide

/-- Claim C3 (amended): a predict request whose payload lacks `data`
always fails with an uncaught key-error (an internal error class, not a
bad-request abort), for every project name and model identifier; the
failure occurs after the model identifier is resolved but before the
execution target is looked up (the trace holds exactly the
version-resolve step). -/
theorem predict_missing_data_behavior {Data Params Frame Row : Type}
    (env : PredictEnv Data Params Frame Row) (project_name model_name : String)
    (json : PredictPayload Data Params) (h : json.data = none) :
    model_predict_post env project_name model_name json
      = (Response.pythonError "KeyError: data",
         [PredictEvent.version_resolve model_name
            (resolve_model_version model_name).1 (resolve_model_version model_name).2]) := by
  simp [model_predict_post, h]

theorem predict_missing_data_behavior_witness :
    model_predict_post (⟨fun _ => none, fun _ => []⟩ : PredictEnv Nat Nat Nat Nat)
        "proj" "m" ⟨none, none⟩
      = (Response.pythonError "KeyError: data",
         [PredictEvent.version_resolve "m" "m" none]) := by
  exact predict_missing_data_behavior _ "proj" "m" ⟨none, none⟩ rfl

/-- Claim C1: upsert (PUT) semantics when the project resolves. View
absent from storage: a missing `query` yields bad-request, a present
`query` creates the view and returns its public projection with the
created (201) status. View present: `query` is optional — when present
the stored query is replaced, when absent the registry is unchanged —
and the public projection is returned with the normal (200) status. The
four cases are discriminated only by presence of the view in storage and
of `query` in the payload. -/
theorem upsert_view_semantics (db : DB) (pn vn : String) (json : ViewPayload)
    (project : Project) (hp : db.get_project pn = some project) :
    (json.view.bind ViewFields.query = none → project.get_view vn = none →
        ∃ msg, view_resource_put db pn vn json = (.aborted 400 msg, db))
    ∧ (∀ vobj q, json.view = some vobj → vobj.query = some q →
        project.get_view vn = none →
        view_resource_put db pn vn json =
          (.ok 201 ⟨project.nextId, vn, q⟩,
           db.set_project pn (project.create_view vn q)))
    ∧ (∀ vobj q v, json.view = some vobj → vobj.query = some q →
        project.get_view vn = some v →
        view_resource_put db pn vn json =
          (.ok 200 ⟨v.metaId, v.name, q⟩,
           db.set_project pn (project.update_view vn q)))
    ∧ (∀ vobj v, json.view = some vobj → vobj.query = none →
        project.get_view vn = some v →
        view_resource_put db pn vn json
          = (.ok 200 ⟨v.metaId, v.name, v.query⟩, db)) := by
  refine ⟨?_, ?_, ?_, ?_⟩
  · intro hq hgv
    cases hv : json.view with
    | none =>
      refine ⟨"Must provide \"view\" parameter in PUT body", ?_⟩
      simp [view_resource_put, hv]
    | some vobj =>
      have hq2 : vobj.query = none := by
        rw [hv] at hq
        simpa using hq
      refine ⟨"Missing \"query\" field for new view", ?_⟩
      simp [view_resource_put, hv, hp, hgv, hq2]
  · intro vobj q hv hq hgv
    have hc := Project.get_view_create_view (p := project) (n := vn) q hgv
    simp [view_resource_put, hv, hp, hgv, hq, hc, view_public_projection]
  · intro vobj q v hv hq hgv
    have hu := Project.get_view_update_view (p := project) (n := vn) q hgv
    simp [view_resource_put, hv, hp, hgv, hq, hu, view_public_projection]
  · intro vobj v hv hq hgv
    simp [view_resource_put, hv, hp, hgv, hq, view_public_projection]

theorem upsert_view_semantics_witness :
    view_resource_put ⟨[("p", ⟨[], 5⟩)]⟩ "p" "v" ⟨some ⟨none, some "q"⟩⟩
      = (.ok 201 ⟨5, "v", "q"⟩, ⟨[("p", ⟨[⟨"v", "q", 5, [], []⟩], 6⟩)]⟩) := by
  exact (upsert_view_semantics ⟨[("p", ⟨[], 5⟩)]⟩ "p" "v" ⟨some ⟨none, some "q"⟩⟩
    ⟨[], 5⟩ rfl).2.1 ⟨none, some "q"⟩ "q" rfl rfl rfl

/-- Claim C4: for a project name the directory cannot resolve, every view
operation that reaches resolution (list, get, create with well-formed
payload, upsert with the `view` object present, delete) aborts not-found
with a message naming the project; a predict request whose data-hub
lookup yields no executable target aborts with the internal (500)
dispatch-error class, which is not a not-found outcome. -/
theorem missing_project_outcomes {Data Params Frame Row : Type}
    (db : DB) (pn vn : String) (json : ViewPayload) (vobj : ViewFields)
    (nm q : String) (env : PredictEnv Data Params Frame Row)
    (mn : String) (pjson : PredictPayload Data Params) (d : Data)
    (hdb : db.get_project pn = none)
    (hview : json.view = some vobj) (hname : vobj.name = some nm)
    (hquery : vobj.query = some q)
    (hhub : env.datahub_get pn = none) (hdata : pjson.data = some d) :
    views_list_get db pn = .aborted 404 ("Project name " ++ pn ++ " does not exist")
    ∧ view_resource_get db pn vn
        = .aborted 404 ("Project name " ++ pn ++ " does not exist")
    ∧ views_list_post db pn json
        = (.aborted 404 ("Project name " ++ pn ++ " does not exist"), db)
    ∧ view_resource_put db pn vn json
        = (.aborted 404 ("Project name " ++ pn ++ " does not exist"), db)
    ∧ view_resource_delete db pn vn
        = (.aborted 404 ("Project name " ++ pn ++ " does not exist"), db)
    ∧ (model_predict_post env pn mn pjson).1
        = .aborted 500 ("Project not found: " ++ pn)
    ∧ (model_predict_post env pn mn pjson).1.isNotFound = false := by
  refine ⟨?_, ?_, ?_, ?_, ?_, ?_, ?_⟩
  · simp [views_list_get, hdb]
  · simp [view_resource_get, hdb]
  · simp [views_list_post, views_list_post_core, hview, hname, hquery, hdb]
  · simp [view_resource_put, hview, hdb]
  · simp [view_resource_delete, hdb]
  · simp [model_predict_post, hdata, hhub]
  · simp [model_predict_post, hdata, hhub, Response.isNotFound]

theorem missing_project_outcomes_witness :
    views_list_get ⟨[]⟩ "nope" = .aborted 404 "Project name nope does not exist" := by
  exact (missing_project_outcomes ⟨[]⟩ "nope" "v" ⟨some ⟨some "n", some "q"⟩⟩
    ⟨some "n", some "q"⟩ "n" "q"
    (⟨fun _ => none, fun _ => []⟩ : PredictEnv Nat Nat Nat Nat) "m" ⟨some 0, none⟩ 0
    rfl rfl rfl rfl rfl rfl).1

/-- Claim C5 counterexample: a create-view request whose `name` and
`query` are present but empty is not rejected bad-request — validation
passes and the handler creates a view with empty name and query. -/
theorem create_view_empty_fields_counterexample :
    (views_list_post ⟨[("p", ⟨[], 0⟩)]⟩ "p" ⟨some ⟨some "", some ""⟩⟩).1
      = Response.ok 201 ⟨0, "", ""⟩
    ∧ (views_list_post ⟨[("p", ⟨[], 0⟩)]⟩ "p"
        ⟨some ⟨some "", some ""⟩⟩).1.isBadRequest = false := by
  decide

/-- Claim C5 (amended): for every create-view (POST) request with a
`view` object, absence of `name` or of `query` yields a bad-request
outcome (the `name` check first); whenever both fields are present —
emptiness is not checked — the handler proceeds to project resolution,
the conflict check and the creation side effect. -/
theorem create_view_validation (db : DB) (pn : String) (json : ViewPayload)
    (vobj : ViewFields) (hv : json.view = some vobj) :
    (vobj.name = none →
        views_list_post db pn json
          = (.aborted 400 "Missing \"name\" field for view", db))
    ∧ (∀ nm, vobj.name = some nm → vobj.query = none →
        views_list_post db pn json
          = (.aborted 400 "Missing \"query\" field for view", db))
    ∧ (∀ nm q, vobj.name = some nm → vobj.query = some q →
        views_list_post db pn json = views_list_post_core db pn nm q) := by
  refine ⟨?_, ?_, ?_⟩
  · intro hn
    simp [views_list_post, hv, hn]
  · intro nm hn hq
    simp [views_list_post, hv, hn, hq]
  · intro nm q hn hq
    simp [views_list_post, hv, hn, hq]

theorem create_view_validation_witness :
    views_list_post ⟨[]⟩ "p" ⟨some ⟨some "n", none⟩⟩
      = (.aborted 400 "Missing \"query\" field for view", ⟨[]⟩) := by
  exact (create_view_validation ⟨[]⟩ "p" ⟨some ⟨some "n", none⟩⟩
    ⟨some "n", none⟩ rfl).2.1 "n" rfl rfl

/-- Claim C6: for a well-formed create-view request against an existing
project, the outcome is a conflict abort iff a view with the same name
already exists; on conflict the registry is unchanged (the stored query
in particular), and otherwise a new view is created and its public
projection returned with the created (201) status. -/
theorem create_view_conflict_iff (db : DB) (pn : String) (json : ViewPayload)
    (vobj : ViewFields) (nm q : String) (project : Project)
    (hv : json.view = some vobj) (hn : vobj.name = some nm)
    (hq : vobj.query = some q) (hp : db.get_project pn = some project) :
    ((views_list_post db pn json).1
        = .aborted 409 ("View with name " ++ nm ++ " already exists.")
      ↔ (project.get_view nm).isSome)
    ∧ ((project.get_view nm).isSome →
        views_list_post db pn json
          = (.aborted 409 ("View with name " ++ nm ++ " already exists."), db))
    ∧ (project.get_view nm = none →
        views_list_post db pn json
          = (.ok 201 ⟨project.nextId, nm, q⟩,
             db.set_project pn (project.create_view nm q))) := by
  have hpost : views_list_post db pn json = views_list_post_core db pn nm q := by
    simp [views_list_post, hv, hn, hq]
  refine ⟨?_, ?_, ?_⟩
  · cases hgv : project.get_view nm with
    | some v =>
      simp [hpost, views_list_post_core, hp, hgv]
    | none =>
      have hc := Project.get_view_create_view (p := project) (n := nm) q hgv
      simp [hpost, views_list_post_core, hp, hgv, hc]
  · intro hs
    rw [Option.isSome_iff_exists] at hs
    obtain ⟨v, hgv⟩ := hs
    simp [hpost, views_list_post_core, hp, hgv]
  · intro hgv
    have hc := Project.get_view_create_view (p := project) (n := nm) q hgv
    simp [hpost, views_list_post_core, hp, hgv, hc, view_public_projection]

theorem create_view_conflict_iff_witness :
    views_list_post ⟨[("p", ⟨[⟨"v", "q0", 1, [], []⟩], 2⟩)]⟩ "p"
        ⟨some ⟨some "v", some "q1"⟩⟩
      = (.aborted 409 "View with name v already exists.",
         ⟨[("p", ⟨[⟨"v", "q0", 1, [], []⟩], 2⟩)]⟩) := by
  exact (create_view_conflict_iff ⟨[("p", ⟨[⟨"v", "q0", 1, [], []⟩], 2⟩)]⟩ "p"
    ⟨some ⟨some "v", some "q1"⟩⟩ ⟨some "v", some "q1"⟩ "v" "q1"
    ⟨[⟨"v", "q0", 1, [], []⟩], 2⟩ rfl rfl rfl rfl).2.1 rfl

/-- Claim C7: delete-view against a resolved project: if the view does
not exist the outcome is a not-found abort and the registry is unchanged
(so repeated deletes fail identically absent an intervening create); if
it exists, it is removed and the response is the no-content (204)
success with an empty body. -/
theorem delete_view_semantics (db : DB) (pn vn : String) (project : Project)
    (hp : db.get_project pn = some project) :
    (project.get_view vn = none →
        view_resource_delete db pn vn
          = (.aborted 404 ("View with name " ++ vn ++ " does not exist"), db))
    ∧ (∀ v, project.get_view vn = some v →
        view_resource_delete db pn vn
          = (.ok 204 "", db.set_project pn (project.delete_view vn))
        ∧ (project.delete_view vn).get_view vn = none) := by
  refine ⟨?_, ?_⟩
  · intro hgv
    simp [view_resource_delete, hp, hgv]
  · intro v hgv
    exact ⟨by simp [view_resource_delete, hp, hgv],
      Project.get_view_delete_view project vn⟩

theorem delete_view_semantics_witness :
    view_resource_delete ⟨[("p", ⟨[], 3⟩)]⟩ "p" "v"
      = (.aborted 404 "View with name v does not exist", ⟨[("p", ⟨[], 3⟩)]⟩) := by
  exact (delete_view_semantics ⟨[("p", ⟨[], 3⟩)]⟩ "p" "v" ⟨[], 3⟩ rfl).1 rfl

/-- Claim C8: the list-views response is exactly the per-view public
projection `{id, name, query}` of the stored views, and that projection
is invariant under every other stored field: two stored views agreeing
on id, name and query yield identical entries whatever their remaining
metadata. -/
theorem list_views_public_projection (db : DB) (pn : String) (project : Project)
    (hp : db.get_project pn = some project) :
    views_list_get db pn = .ok 200 (project.get_views.map view_public_projection)
    ∧ ∀ v1 v2 : StoredView, v1.metaId = v2.metaId → v1.name = v2.name →
        v1.query = v2.query → view_public_projection v1 = view_public_projection v2 := by
  refine ⟨by simp [views_list_get, hp], ?_⟩
  intro v1 v2 h1 h2 h3
  simp [view_public_projection, h1, h2, h3]

theorem list_views_public_projection_witness :
    views_list_get ⟨[("p", ⟨[⟨"v", "q", 7, [("secret", "s")], [("x", "y")]⟩], 8⟩)]⟩ "p"
      = .ok 200 [⟨7, "v", "q"⟩] := by
  exact (list_views_public_projection
    ⟨[("p", ⟨[⟨"v", "q", 7, [("secret", "s")], [("x", "y")]⟩], 8⟩)]⟩ "p"
    ⟨[⟨"v", "q", 7, [("secret", "s")], [("x", "y")]⟩], 8⟩ rfl).1

/-- Claim C9: when the execution target resolves, the prediction
capability is invoked exactly once, with the resolved base model name,
the payload's `data`, the parsed version (absent without a digit
suffix), and the payload's `params` passed through unmodified; the
response is exactly the record-sequence conversion of the target's
tabular result. -/
theorem predict_dispatch_exact {Data Params Frame Row : Type}
    (env : PredictEnv Data Params Frame Row) (pn mn : String)
    (json : PredictPayload Data Params) (d : Data)
    (node : DataNode Data Params Frame)
    (hd : json.data = some d) (hn : env.datahub_get pn = some node) :
    model_predict_post env pn mn json
      = (.ok 200 (env.to_dict_records
            (node.predict (resolve_model_version mn).1 d
              (resolve_model_version mn).2 json.params)),
         [PredictEvent.version_resolve mn (resolve_model_version mn).1
            (resolve_model_version mn).2,
          PredictEvent.datahub_get pn,
          PredictEvent.predict_call (resolve_model_version mn).1 d
            (resolve_model_version mn).2 json.params]) := by
  simp [model_predict_post, hd, hn]

theorem predict_dispatch_exact_witness :
    model_predict_post
        (⟨fun _ => some ⟨fun _ _ _ _ => 42⟩, fun f => [f]⟩ : PredictEnv Nat Nat Nat Nat)
        "p" "m.3" ⟨some 9, some 1⟩
      = (.ok 200 [42],
         [PredictEvent.version_resolve "m.3" "m" (some 3),
          PredictEvent.datahub_get "p",
          PredictEvent.predict_call "m" 9 (some 3) (some 1)]) := by
  exact predict_dispatch_exact _ "p" "m.3" ⟨some 9, some 1⟩ 9 ⟨fun _ _ _ _ => 42⟩ rfl rfl

/-- Claim C10: validation ordering. A payload without the top-level
`view` object is rejected bad-request before project resolution in both
POST and PUT (so even against a nonexistent project); a POST payload
with `view` but lacking `name` or `query` is likewise rejected
bad-request before resolution; but PUT checks `query` only after
project resolution and view lookup, so a PUT with `view` present and
`query` absent against a nonexistent project aborts project-not-found,
not bad-request. -/
theorem validation_ordering :
    (∀ (db : DB) (pn : String) (json : ViewPayload), json.view = none →
        views_list_post db pn json
          = (.aborted 400 "Must provide \"view\" parameter in POST body", db))
    ∧ (∀ (db : DB) (pn vn : String) (json : ViewPayload), json.view = none →
        view_resource_put db pn vn json
          = (.aborted 400 "Must provide \"view\" parameter in PUT body", db))
    ∧ (∀ (db : DB) (pn : String) (json : ViewPayload) (vobj : ViewFields),
        db.get_project pn = none → json.view = some vobj →
        (vobj.name = none ∨ vobj.query = none) →
        ∃ msg, views_list_post db pn json = (.aborted 400 msg, db))
    ∧ (∀ (db : DB) (pn vn : String) (json : ViewPayload) (vobj : ViewFields),
        db.get_project pn = none → json.view = some vobj → vobj.query = none →
        view_resource_put db pn vn json
          = (.aborted 404 ("Project name " ++ pn ++ " does not exist"), db)) := by
  refine ⟨?_, ?_, ?_, ?_⟩
  · intro db pn json hv
    simp [views_list_post, hv]
  · intro db pn vn json hv
    simp [view_resource_put, hv]
  · intro db pn json vobj hdb hv hor
    cases hn : vobj.name with
    | none =>
      exact ⟨"Missing \"name\" field for view", by simp [views_list_post, hv, hn]⟩
    | some nm =>
      have hq : vobj.query = none := by
        rcases hor with h | h
        · rw [hn] at h
          exact absurd h (by simp)
        · exact h
      exact ⟨"Missing \"query\" field for view", by simp [views_list_post, hv, hn, hq]⟩
  · intro db pn vn json vobj hdb hv hq
    simp [view_resource_put, hv, hdb]

theorem validation_ordering_witness :
    view_resource_put ⟨[]⟩ "ghost" "v" ⟨some ⟨none, none⟩⟩
      = (.aborted 404 "Project name ghost does not exist", ⟨[]⟩) := by
  exact validation_ordering.2.2.2 ⟨[]⟩ "ghost" "v" ⟨some ⟨none, none⟩⟩
    ⟨none, none⟩ rfl rfl rfl

end MindsDB
